import Mathlib

/-
Verification development for the FoodatHome application (src/src/App.js).

The application keeps three document collections in a remote store:
  - private menus, at path artifacts/{appId}/users/{userId}/menus/{menuId};
  - public published menus, at artifacts/{appId}/public/data/published_menus,
    keyed by the menu code;
  - orders, at artifacts/{appId}/public/data/orders, each carrying a menuCode
    field.
We embed the store as three association lists and the operations of App.js as
pure state transformers on that store.  JavaScript falsiness of the string
arguments (undefined / null / empty string) is modelled by the empty string;
the `db` handle is the store value itself and is always present.  Timestamps
(new Date()) are modelled as Nat parameters supplied by the caller, one per
distinct `new Date()` call site.  Math.random() is modelled by the list of
base-36 digits of the fractional part of the generated number, exactly as
Number.prototype.toString(36) prints them (shortest form, no trailing zero
digit; the empty list is the printed form "0" of the value 0).
-/

namespace FoodAtHome

/-- A menu item; created items carry at least a name and a price
(App.js never inspects item fields in the operations modelled here,
it only copies the items list). -/
structure Item where
  name : String
  price : Nat
deriving DecidableEq, Repr

/-- A menu category, `{ id, name }` as built in createNewMenu (App.js:239). -/
structure Category where
  id : String
  name : String
deriving DecidableEq, Repr

/-- A private menu document as written by createNewMenu (App.js:237-241):
fields name, code, items, categories, createdAt, chefId. -/
structure MenuDoc where
  name : String
  code : String
  items : List Item
  categories : List Category
  createdAt : Nat
  chefId : String
deriving DecidableEq, Repr

/-- A published menu document as written by publishMenu (App.js:167-175):
fields name, code, items, categories, chefId, menuId_original, updatedAt. -/
structure PublishedMenuDoc where
  name : String
  code : String
  items : List Item
  categories : List Category
  chefId : String
  menuId_original : String
  updatedAt : Nat
deriving DecidableEq, Repr

/-- An order document; only its menuCode field (the foreign key used by the
queries in App.js:223 and App.js:256) matters to the modelled operations;
the rest of the document is an opaque payload. -/
structure OrderDoc where
  menuCode : String
  payload : String
deriving DecidableEq, Repr

/-- The document store: private menus keyed by (userId, menuId), published
menus keyed by code, orders keyed by a store-generated order id. -/
structure Store where
  menus : List ((String × String) × MenuDoc)
  published : List (String × PublishedMenuDoc)
  orders : List (String × OrderDoc)
deriving DecidableEq, Repr

/-- The empty store. -/
def emptyStore : Store := { menus := [], published := [], orders := [] }

/-- getDoc: look a document up by key in an association list. -/
def assocGet {α β : Type} [DecidableEq α] (l : List (α × β)) (k : α) : Option β :=
  (l.find? (fun p => decide (p.1 = k))).map (fun p => p.2)

/-- deleteDoc: remove the document with the given key. -/
def assocDel {α β : Type} [DecidableEq α] (l : List (α × β)) (k : α) : List (α × β) :=
  l.filter (fun p => !(decide (p.1 = k)))

/-- setDoc: upsert, a full replace of the document at the given key. -/
def assocSet {α β : Type} [DecidableEq α] (l : List (α × β)) (k : α) (v : β) : List (α × β) :=
  (k, v) :: assocDel l k

theorem assocGet_set_self {α β : Type} [DecidableEq α] (l : List (α × β)) (k : α) (v : β) :
    assocGet (assocSet l k v) k = some v := by
  simp [assocGet, assocSet, List.find?]

theorem assocGet_del_self {α β : Type} [DecidableEq α] (l : List (α × β)) (k : α) :
    assocGet (assocDel l k) k = none := by
  induction l with
  | nil => rfl
  | cons p rest ih =>
      by_cases h : p.1 = k
      · simp [assocDel, h] at ih ⊢
        exact ih
      · simp only [assocDel, assocGet] at ih
        simp [assocDel, assocGet, List.find?, h, ih]

/-- The character JavaScript uses for a base-36 digit in
Number.prototype.toString(36): 0-9 then a-z. -/
def base36Char (d : Fin 36) : Char :=
  if d.val < 10 then Char.ofNat (48 + d.val) else Char.ofNat (87 + d.val)

/-- generateCode (App.js:230):
`Math.random().toString(36).substring(2, 8).toUpperCase()`.
The argument is the list of base-36 fractional digits that toString(36)
prints for the random number (for the value 0 the printed string is "0" and
the digit list is empty).  substring(2, 8) drops the leading "0." and keeps
at most the first six digit characters; toUpperCase upcases them. -/
def generateCode (digits : List (Fin 36)) : String :=
  String.mk (((digits.take 6).map base36Char).map Char.toUpper)

/-- String.prototype.trim: removes whitespace from both ends of the
string (the ASCII whitespace characters suffice for the inputs handled
here). -/
def jsTrim (s : String) : String :=
  String.mk (((s.data.dropWhile Char.isWhitespace).reverse.dropWhile
    Char.isWhitespace).reverse)

/-- String.prototype.toUpperCase, for the ASCII alphabet of menu codes. -/
def jsToUpper (s : String) : String :=
  String.mk (s.data.map Char.toUpper)

/-- The menu snapshot handed to publishMenu.  In App.js the snapshot is a
plain object, so its items and categories fields may be absent (publishMenu
defaults them with `|| []`, App.js:170-171); absence is modelled by none. -/
structure MenuSnapshot where
  name : String
  code : String
  items : Option (List Item)
  categories : Option (List Category)
deriving DecidableEq, Repr

/-- The snapshot of a fully-built private menu document (every field present). -/
def menuSnapshotOf (m : MenuDoc) : MenuSnapshot :=
  { name := m.name, code := m.code, items := some m.items, categories := some m.categories }

/-- publishMenu (App.js:160-181).  Guard: if menuData.code, chefId or
menuIdOriginal is falsy (modelled: the empty string) it logs and returns
without writing (App.js:161-164).  Otherwise it setDocs into published_menus,
keyed by menuData.code, the projected document with a fresh updatedAt
timestamp (App.js:166-176). -/
def publishMenu (store : Store) (menuData : MenuSnapshot) (chefId menuIdOriginal : String)
    (now : Nat) : Store :=
  if menuData.code = "" ∨ chefId = "" ∨ menuIdOriginal = "" then store
  else
    { store with
        published := assocSet store.published menuData.code
          { name := menuData.name
            code := menuData.code
            items := menuData.items.getD []
            categories := menuData.categories.getD []
            chefId := chefId
            menuId_original := menuIdOriginal
            updatedAt := now } }

/-- createNewMenu (App.js:232-248).  Returns the new store and the modal
message set (none when the function returns silently on a missing userId).
Parameters: rand1 is the Math.random() digit list for the menu code
(App.js:235), rand2 the one for the default category id (App.js:239),
menuIdOriginal the store-generated fresh document id (App.js:236), now1 the
createdAt timestamp, now2 the updatedAt timestamp of the publish step.  The
private document is written first, then publishMenu runs on exactly that
document (App.js:243-244).  The UI-state reset of the name field is outside
the model. -/
def createNewMenu (store : Store) (userId newMenuName : String)
    (rand1 rand2 : List (Fin 36)) (menuIdOriginal : String) (now1 now2 : Nat) :
    Store × Option String :=
  if userId = "" then (store, none)
  else if jsTrim newMenuName = "" then (store, some "Veuillez nommer votre menu.")
  else
    let menuCode := generateCode rand1
    let privateMenuData : MenuDoc :=
      { name := newMenuName
        code := menuCode
        items := []
        categories := [{ id := "cat-" ++ generateCode rand2, name := "Boissons" }]
        createdAt := now1
        chefId := userId }
    let s1 : Store :=
      { store with menus := assocSet store.menus (userId, menuIdOriginal) privateMenuData }
    let s2 := publishMenu s1 (menuSnapshotOf privateMenuData) userId menuIdOriginal now2
    (s2, some ("Menu \"" ++ newMenuName ++ "\" créé (Code: " ++ menuCode ++ ")."))

/-- The menu object handed to confirmDeleteMenu: the fields it reads are
menuToDelete.id and menuToDelete.code (App.js:254-256). -/
structure MenuRef where
  id : String
  code : String
deriving DecidableEq, Repr

/-- The orders query `where("menuCode", "==", code)` (App.js:223, App.js:256). -/
def queryOrdersByCode (store : Store) (code : String) : List (String × OrderDoc) :=
  store.orders.filter (fun o => decide (o.2.menuCode = code))

/-- confirmDeleteMenu (App.js:251-262), with every store operation
succeeding: deletes the private menu document, the published document keyed
by the menu code, and every order whose menuCode equals that code.  The
selectedMenu UI-state reset (App.js:259) is modelled separately in the
dashboard state. -/
def confirmDeleteMenu (store : Store) (userId : String) (menuToDelete : MenuRef) : Store :=
  if userId = "" then store
  else
    { menus := assocDel store.menus (userId, menuToDelete.id)
      published := assocDel store.published menuToDelete.code
      orders := store.orders.filter (fun o => !(decide (o.2.menuCode = menuToDelete.code))) }

/-- confirmDeleteMenu (App.js:251-262) with explicit failure outcomes for the
individual store operations.  An exception from the awaited deleteDoc of the
private document (failPrivate) jumps to the catch, so nothing is deleted; an
exception from the awaited deleteDoc of the published document (failPublished)
jumps to the catch after the private delete, so the published document and
all orders survive.  The per-order deletes (App.js:258) are fired without
await inside forEach, so each one succeeds or fails (failOrder on the order
id) independently of the others and a failure never reaches the catch. -/
def confirmDeleteMenuF (store : Store) (userId : String) (m : MenuRef)
    (failPrivate failPublished : Bool) (failOrder : String → Bool) : Store :=
  if userId = "" then store
  else if failPrivate then store
  else
    let s1 : Store := { store with menus := assocDel store.menus (userId, m.id) }
    if failPublished then s1
    else
      { s1 with
          published := assocDel s1.published m.code
          orders := s1.orders.filter
            (fun o => !(decide (o.2.menuCode = m.code) && !(failOrder o.1))) }

/-- A partial update object passed to updateAndRepublish: any subset of
the name, items and categories fields (callers never include code). -/
structure MenuUpdate where
  name : Option String
  items : Option (List Item)
  categories : Option (List Category)
deriving DecidableEq, Repr

/-- updateDoc field merge: fields present in the update replace the stored
ones, the rest of the document is unchanged. -/
def applyUpdate (m : MenuDoc) (u : MenuUpdate) : MenuDoc :=
  { m with
      name := u.name.getD m.name
      items := u.items.getD m.items
      categories := u.categories.getD m.categories }

/-- updateAndRepublish (App.js:293-303): updateDoc applies the partial
update to the private document (updateDoc throws on a missing document; the
catch swallows it, so the store is unchanged), getDoc re-reads the resulting
full document, and publishMenu runs on that fresh state with the original
menu id. -/
def updateAndRepublish (store : Store) (userId menuId : String) (updates : MenuUpdate)
    (now : Nat) : Store :=
  if userId = "" then store
  else
    match assocGet store.menus (userId, menuId) with
    | none => store
    | some m =>
        let updated := applyUpdate m updates
        let s1 : Store :=
          { store with menus := assocSet store.menus (userId, menuId) updated }
        publishMenu s1 (menuSnapshotOf updated) userId menuId now

/-- A menu as it appears in the dashboard list: the document id plus the
document data (`{ id: doc.id, ...doc.data() }`, App.js:209). -/
structure MenuEntry where
  id : String
  doc : MenuDoc
deriving DecidableEq, Repr

/-- The dashboard state the listMenus subscription touches: the menus list
and the currently selected menu (App.js:186, App.js:189). -/
structure DashboardState where
  menus : List MenuEntry
  selectedMenu : Option MenuEntry
deriving DecidableEq, Repr

/-- The onSnapshot callback of the listMenus subscription (App.js:208-214):
setMenus replaces the list with the delivered set, and when a selected menu
exists whose id is absent from the delivered set the selection is cleared. -/
def onMenusSnapshot (st : DashboardState) (fetched : List MenuEntry) : DashboardState :=
  { menus := fetched
    selectedMenu :=
      match st.selectedMenu with
      | none => none
      | some sel => if fetched.any (fun m => decide (m.id = sel.id)) then some sel else none }

/-- handleFamilyAccess (App.js:131-137): an all-whitespace code raises a
modal message (none here), otherwise navigation carries
code.trim().toUpperCase() as the menuCode parameter. -/
def handleFamilyAccess (code : String) : Option String :=
  if jsTrim code = "" then none else some (jsToUpper (jsTrim code))

/-- The family lookup pipeline: the code typed on the home page is
normalized by handleFamilyAccess, travels through the hash route as the
code parameter, and FamilyOrderPage getDocs the published_menus document
keyed by it (App.js:328-329). -/
def familyLookup (store : Store) (input : String) : Option PublishedMenuDoc :=
  match handleFamilyAccess input with
  | none => none
  | some k => assocGet store.published k

/-- Sample private menu document used in concrete witnesses. -/
def lunchDoc : MenuDoc :=
  { name := "Lunch", code := "ABC123", items := [], categories := [], createdAt := 0,
    chefId := "chef" }

/-- Sample published menu document used in concrete witnesses. -/
def lunchPub : PublishedMenuDoc :=
  { name := "Lunch", code := "ABC123", items := [], categories := [], chefId := "chef",
    menuId_original := "m1", updatedAt := 0 }

/-- Sample store used in concrete witnesses. -/
def sampleStore : Store :=
  { menus := [(("chef", "m1"), lunchDoc)]
    published := [("ABC123", lunchPub)]
    orders := [("o1", { menuCode := "ABC123", payload := "x" }),
               ("o2", { menuCode := "ZZZ999", payload := "y" })] }

/-- Sample snapshot used in concrete witnesses. -/
def lunchSnap : MenuSnapshot := menuSnapshotOf lunchDoc

/-- The store reached by creating a menu while Math.random() returns 0
(toString(36) prints "0", so substring(2, 8) is empty and the generated
code is the empty string): the private document exists with code "", and
publishMenu refuses to write the projection. -/
def bugStore : Store := (createNewMenu emptyStore "chef" "Lunch" [] [1] "m1" 0 1).1

/-- A name-only update, as in the renaming example of the specification. -/
def bugUpdate : MenuUpdate := { name := some "Dinner", items := none, categories := none }

/-- Claim C7: when the menu code, the chef id, or the original menu id is
missing (falsy, modelled by the empty string), publishMenu performs no
store write: the store is returned unchanged. -/
theorem publishMenu_guard_noop (s : Store) (snap : MenuSnapshot) (chefId mid : String)
    (now : Nat) (h : snap.code = "" ∨ chefId = "" ∨ mid = "") :
    publishMenu s snap chefId mid now = s := by
  unfold publishMenu
  rw [if_pos h]

/-- Witness for C7 at a snapshot with an empty code. -/
theorem publishMenu_guard_noop_witness :
    ({ name := "Lunch", code := "", items := none, categories := none } : MenuSnapshot).code
        = "" ∧
    publishMenu sampleStore { name := "Lunch", code := "", items := none, categories := none }
        "chef" "m1" 7 = sampleStore :=
  ⟨rfl, publishMenu_guard_noop sampleStore
    { name := "Lunch", code := "", items := none, categories := none } "chef" "m1" 7
    (Or.inl rfl)⟩

/-- Claim C6: with a signed-in chef, a name that is empty or whitespace-only
makes createNewMenu surface the validation message and perform no document
write at all: the store is returned unchanged. -/
theorem createNewMenu_rejects_blank_name (s : Store) (userId name : String)
    (rand1 rand2 : List (Fin 36)) (mid : String) (t1 t2 : Nat)
    (hu : userId ≠ "") (hn : jsTrim name = "") :
    createNewMenu s userId name rand1 rand2 mid t1 t2
      = (s, some "Veuillez nommer votre menu.") := by
  unfold createNewMenu
  rw [if_neg hu, if_pos hn]

/-- Witness for C6 at the whitespace-only name "   ". -/
theorem createNewMenu_rejects_blank_name_witness :
    jsTrim "   " = "" ∧
    createNewMenu sampleStore "chef" "   " [1] [2] "m2" 0 1
      = (sampleStore, some "Veuillez nommer votre menu.") :=
  ⟨by decide, createNewMenu_rejects_blank_name sampleStore "chef" "   " [1] [2] "m2" 0 1
    (by decide) (by decide)⟩

/-- Claim C2 (evaluation at the failing input): when Math.random() returns
0.5, whose base-36 string is "0.i" (single fractional digit 18), the
generated code is "I", one character long rather than six. -/
theorem generateCode_short_code :
    generateCode [(18 : Fin 36)] = "I" ∧ (generateCode [(18 : Fin 36)]).length = 1 := by
  decide

/-- Claim C5: publishMenu is idempotent: publishing the same snapshot,
chef id and original menu id twice stores a published document with
identical fields both times, except for the updatedAt timestamp. -/
theorem publishMenu_idempotent (s : Store) (snap : MenuSnapshot) (chefId mid : String)
    (t1 t2 : Nat) (hc : snap.code ≠ "") (hch : chefId ≠ "") (hm : mid ≠ "") :
    ∃ d1 d2 : PublishedMenuDoc,
      assocGet (publishMenu s snap chefId mid t1).published snap.code = some d1 ∧
      assocGet (publishMenu (publishMenu s snap chefId mid t1) snap chefId mid t2).published
          snap.code = some d2 ∧
      d2 = { d1 with updatedAt := t2 } := by
  have hcond : ¬(snap.code = "" ∨ chefId = "" ∨ mid = "") := by
    push_neg
    exact ⟨hc, hch, hm⟩
  refine
    ⟨{ name := snap.name, code := snap.code, items := snap.items.getD [],
       categories := snap.categories.getD [], chefId := chefId, menuId_original := mid,
       updatedAt := t1 },
     { name := snap.name, code := snap.code, items := snap.items.getD [],
       categories := snap.categories.getD [], chefId := chefId, menuId_original := mid,
       updatedAt := t2 }, ?_, ?_, rfl⟩
  · unfold publishMenu
    rw [if_neg hcond]
    exact assocGet_set_self ..
  · unfold publishMenu
    rw [if_neg hcond, if_neg hcond]
    exact assocGet_set_self ..

/-- Witness for C5 at a concrete snapshot and timestamps 3 and 7. -/
theorem publishMenu_idempotent_witness :
    lunchSnap.code ≠ "" ∧
    (∃ d1 d2 : PublishedMenuDoc,
      assocGet (publishMenu emptyStore lunchSnap "chef" "m1" 3).published lunchSnap.code
        = some d1 ∧
      assocGet (publishMenu (publishMenu emptyStore lunchSnap "chef" "m1" 3) lunchSnap
          "chef" "m1" 7).published lunchSnap.code = some d2 ∧
      d2 = { d1 with updatedAt := 7 }) :=
  ⟨by decide, publishMenu_idempotent emptyStore lunchSnap "chef" "m1" 3 7
    (by decide) (by decide) (by decide)⟩

/-- Claim C3: with every store operation succeeding, confirmDeleteMenu
removes the private menu document, the published document keyed by the menu
code, and every order whose menuCode equals that code, so the orders query
by that code afterwards returns the empty set. -/
theorem confirmDeleteMenu_removes_all (s : Store) (userId : String) (m : MenuRef)
    (hu : userId ≠ "") :
    assocGet (confirmDeleteMenu s userId m).menus (userId, m.id) = none ∧
    assocGet (confirmDeleteMenu s userId m).published m.code = none ∧
    queryOrdersByCode (confirmDeleteMenu s userId m) m.code = [] := by
  unfold confirmDeleteMenu
  rw [if_neg hu]
  refine ⟨assocGet_del_self .., assocGet_del_self .., ?_⟩
  unfold queryOrdersByCode
  have hfilter : ∀ l : List (String × OrderDoc),
      (l.filter (fun o => !(decide (o.2.menuCode = m.code)))).filter
        (fun o => decide (o.2.menuCode = m.code)) = [] := by
    intro l
    induction l with
    | nil => rfl
    | cons a t ih =>
        by_cases h : a.2.menuCode = m.code <;> simp [h, ih]
  exact hfilter s.orders

/-- Witness for C3 at the sample store. -/
theorem confirmDeleteMenu_removes_all_witness :
    ("chef" : String) ≠ "" ∧
    (assocGet (confirmDeleteMenu sampleStore "chef" { id := "m1", code := "ABC123" }).menus
        ("chef", "m1") = none ∧
     assocGet (confirmDeleteMenu sampleStore "chef" { id := "m1", code := "ABC123" }).published
        "ABC123" = none ∧
     queryOrdersByCode (confirmDeleteMenu sampleStore "chef" { id := "m1", code := "ABC123" })
        "ABC123" = []) :=
  ⟨by decide, confirmDeleteMenu_removes_all sampleStore "chef" { id := "m1", code := "ABC123" }
    (by decide)⟩

/-- Claim C8: when the awaited deletion of the published document fails, the
failure is only logged: the private deletion already performed is not rolled
back and the remaining deletions are not retried, so the store is left in
the partial state where the private menu is gone while the published
document and every order survive untouched. -/
theorem confirmDeleteMenu_no_rollback (s : Store) (userId : String) (m : MenuRef)
    (hu : userId ≠ "") :
    (confirmDeleteMenuF s userId m false true (fun _ => false)).menus
      = assocDel s.menus (userId, m.id) ∧
    (confirmDeleteMenuF s userId m false true (fun _ => false)).published = s.published ∧
    (confirmDeleteMenuF s userId m false true (fun _ => false)).orders = s.orders := by
  unfold confirmDeleteMenuF
  rw [if_neg hu]
  simp

/-- Witness for C8 at the sample store: the published document is still
present after the partially failed deletion. -/
theorem confirmDeleteMenu_no_rollback_witness :
    ("chef" : String) ≠ "" ∧
    ((confirmDeleteMenuF sampleStore "chef" { id := "m1", code := "ABC123" } false true
        (fun _ => false)).menus = assocDel sampleStore.menus ("chef", "m1") ∧
     (confirmDeleteMenuF sampleStore "chef" { id := "m1", code := "ABC123" } false true
        (fun _ => false)).published = sampleStore.published ∧
     (confirmDeleteMenuF sampleStore "chef" { id := "m1", code := "ABC123" } false true
        (fun _ => false)).orders = sampleStore.orders) :=
  ⟨by decide, confirmDeleteMenu_no_rollback sampleStore "chef" { id := "m1", code := "ABC123" }
    (by decide)⟩

/-- Claim C9: on every delivery of the menus subscription the dashboard
replaces its menu list with the delivered set, and any menu still selected
afterwards has its id in the delivered set (a selection whose id is absent
is cleared). -/
theorem onMenusSnapshot_selection_invariant (st : DashboardState) (fetched : List MenuEntry) :
    (onMenusSnapshot st fetched).menus = fetched ∧
    ∀ sel : MenuEntry, (onMenusSnapshot st fetched).selectedMenu = some sel →
      fetched.any (fun m => decide (m.id = sel.id)) = true := by
  refine ⟨rfl, ?_⟩
  intro sel h
  rcases hsel : st.selectedMenu with _ | s0
  · simp [onMenusSnapshot, hsel] at h
  · simp only [onMenusSnapshot, hsel] at h
    split at h
    · rename_i hcond
      cases h
      exact hcond
    · exact absurd h (by simp)

/-- Witness for C9: a state whose selected menu survives a delivery that
still contains its id. -/
theorem onMenusSnapshot_selection_invariant_witness :
    (onMenusSnapshot { menus := [], selectedMenu := some { id := "m1", doc := lunchDoc } }
        [{ id := "m1", doc := lunchDoc }]).menus = [{ id := "m1", doc := lunchDoc }] ∧
    ((onMenusSnapshot { menus := [], selectedMenu := some { id := "m1", doc := lunchDoc } }
        [{ id := "m1", doc := lunchDoc }]).selectedMenu = some { id := "m1", doc := lunchDoc } →
      ([{ id := "m1", doc := lunchDoc }] : List MenuEntry).any
        (fun m => decide (m.id = ({ id := "m1", doc := lunchDoc } : MenuEntry).id)) = true) :=
  ⟨(onMenusSnapshot_selection_invariant
      { menus := [], selectedMenu := some { id := "m1", doc := lunchDoc } }
      [{ id := "m1", doc := lunchDoc }]).1,
   (onMenusSnapshot_selection_invariant
      { menus := [], selectedMenu := some { id := "m1", doc := lunchDoc } }
      [{ id := "m1", doc := lunchDoc }]).2 { id := "m1", doc := lunchDoc }⟩

/-- Claim C10: a non-blank code entered on the home page is normalized by
trimming surrounding whitespace and upcasing before it is used as the
published-menus lookup key, so the family lookup resolves exactly the
document keyed by the normalized form. -/
theorem familyLookup_normalizes (store : Store) (input : String) (h : jsTrim input ≠ "") :
    familyLookup store input = assocGet store.published (jsToUpper (jsTrim input)) := by
  unfold familyLookup handleFamilyAccess
  rw [if_neg h]

/-- Witness for C10: the lowercase, whitespace-padded input " abc123 "
resolves to the same published document as the stored code "ABC123". -/
theorem familyLookup_normalizes_witness :
    jsTrim " abc123 " ≠ "" ∧ jsToUpper (jsTrim " abc123 ") = "ABC123" ∧
    familyLookup sampleStore " abc123 " = assocGet sampleStore.published "ABC123" :=
  ⟨by decide, by decide, familyLookup_normalizes sampleStore " abc123 " (by decide)⟩

/-- Claim C1, amended: for a signed-in chef, a valid (non-blank) name, a
store-generated menu id, and a nonempty generated code, createNewMenu leaves
a private menu document and a published document keyed by the private
document code, and the published document carries the same code, name,
items list and categories list as the private document written just before
it.  (With an empty generated code, possible when Math.random() returns 0,
the publish guard skips the public write: see the counterexample.) -/
theorem createNewMenu_publishes_projection (s : Store) (userId name : String)
    (rand1 rand2 : List (Fin 36)) (mid : String) (t1 t2 : Nat)
    (hu : userId ≠ "") (hn : jsTrim name ≠ "") (hc : generateCode rand1 ≠ "")
    (hm : mid ≠ "") :
    ∃ priv : MenuDoc, ∃ pub : PublishedMenuDoc,
      assocGet (createNewMenu s userId name rand1 rand2 mid t1 t2).1.menus (userId, mid)
        = some priv ∧
      assocGet (createNewMenu s userId name rand1 rand2 mid t1 t2).1.published priv.code
        = some pub ∧
      pub.code = priv.code ∧ pub.name = priv.name ∧ pub.items = priv.items ∧
      pub.categories = priv.categories := by
  have hcond : ¬((menuSnapshotOf
      { name := name, code := generateCode rand1, items := [],
        categories := [{ id := "cat-" ++ generateCode rand2, name := "Boissons" }],
        createdAt := t1, chefId := userId }).code = "" ∨ userId = "" ∨ mid = "") := by
    push_neg
    exact ⟨hc, hu, hm⟩
  unfold createNewMenu
  rw [if_neg hu, if_neg hn]
  simp only []
  unfold publishMenu
  rw [if_neg hcond]
  refine
    ⟨{ name := name, code := generateCode rand1, items := [],
       categories := [{ id := "cat-" ++ generateCode rand2, name := "Boissons" }],
       createdAt := t1, chefId := userId },
     { name := name, code := generateCode rand1, items := [],
       categories := [{ id := "cat-" ++ generateCode rand2, name := "Boissons" }],
       chefId := userId, menuId_original := mid, updatedAt := t2 },
     assocGet_set_self .., assocGet_set_self .., rfl, rfl, rfl, rfl⟩

/-- Witness for C1 at a six-digit random expansion (the code is "I23456"). -/
theorem createNewMenu_publishes_projection_witness :
    generateCode [18, 1, 2, 3, 4, 5] ≠ "" ∧ jsTrim "Lunch" ≠ "" ∧
    (∃ priv : MenuDoc, ∃ pub : PublishedMenuDoc,
      assocGet (createNewMenu emptyStore "chef" "Lunch" [18, 1, 2, 3, 4, 5] [1] "m1" 0 1).1.menus
        ("chef", "m1") = some priv ∧
      assocGet (createNewMenu emptyStore "chef" "Lunch" [18, 1, 2, 3, 4, 5] [1] "m1" 0 1).1.published
        priv.code = some pub ∧
      pub.code = priv.code ∧ pub.name = priv.name ∧ pub.items = priv.items ∧
      pub.categories = priv.categories) :=
  ⟨by decide, by decide,
   createNewMenu_publishes_projection emptyStore "chef" "Lunch" [18, 1, 2, 3, 4, 5] [1] "m1" 0 1
     (by decide) (by decide) (by decide) (by decide)⟩

/-- Counterexample to C1 as stated: when Math.random() returns 0, the
generated code is the empty string, the private menu is written (the name
validation passed), but no published document is stored at all. -/
theorem createNewMenu_emptyCode_counterexample :
    bugStore.published = [] ∧ assocGet bugStore.menus ("chef", "m1") ≠ none := by
  decide

/-- Claim C4, amended: for a signed-in chef and an existing private menu
whose code is nonempty, updateAndRepublish applies the partial field update
to the private document, re-reads the resulting full document, and
republishes from that fresh state, so the published document keyed by the
menu code afterwards carries the updated name, items and categories.  (For
the empty-code state reachable when Math.random() returned 0 at creation,
the publish guard skips the public write: see the counterexample.) -/
theorem updateAndRepublish_reflects (s : Store) (userId menuId : String) (u : MenuUpdate)
    (now : Nat) (m : MenuDoc) (hu : userId ≠ "") (hmid : menuId ≠ "")
    (hm : assocGet s.menus (userId, menuId) = some m) (hc : m.code ≠ "") :
    assocGet (updateAndRepublish s userId menuId u now).menus (userId, menuId)
      = some (applyUpdate m u) ∧
    assocGet (updateAndRepublish s userId menuId u now).published m.code
      = some
          { name := (applyUpdate m u).name, code := m.code,
            items := (applyUpdate m u).items, categories := (applyUpdate m u).categories,
            chefId := userId, menuId_original := menuId, updatedAt := now } := by
  have hcond : ¬((menuSnapshotOf (applyUpdate m u)).code = "" ∨ userId = "" ∨ menuId = "") := by
    push_neg
    refine ⟨?_, hu, hmid⟩
    show (applyUpdate m u).code ≠ ""
    exact hc
  unfold updateAndRepublish
  rw [if_neg hu, hm]
  simp only []
  unfold publishMenu
  rw [if_neg hcond]
  exact ⟨assocGet_set_self .., assocGet_set_self ..⟩

/-- Witness for C4: renaming the sample menu from "Lunch" to "Dinner"
updates both the private document and the public projection. -/
theorem updateAndRepublish_reflects_witness :
    assocGet sampleStore.menus ("chef", "m1") = some lunchDoc ∧ lunchDoc.code ≠ "" ∧
    (assocGet (updateAndRepublish sampleStore "chef" "m1" bugUpdate 9).menus ("chef", "m1")
      = some (applyUpdate lunchDoc bugUpdate) ∧
     assocGet (updateAndRepublish sampleStore "chef" "m1" bugUpdate 9).published lunchDoc.code
      = some
          { name := (applyUpdate lunchDoc bugUpdate).name, code := lunchDoc.code,
            items := (applyUpdate lunchDoc bugUpdate).items,
            categories := (applyUpdate lunchDoc bugUpdate).categories,
            chefId := "chef", menuId_original := "m1", updatedAt := 9 }) :=
  ⟨by decide, by decide,
   updateAndRepublish_reflects sampleStore "chef" "m1" bugUpdate 9 lunchDoc
     (by decide) (by decide) (by decide) (by decide)⟩

/-- Counterexample to C4 as stated: on the reachable store holding a menu
whose generated code is empty, the name update is applied to the private
document ("Lunch" becomes "Dinner") while no published document exists to
reflect it (the publish guard skipped the write). -/
theorem updateAndRepublish_emptyCode_counterexample :
    (assocGet (updateAndRepublish bugStore "chef" "m1" bugUpdate 5).menus ("chef", "m1")).map
        MenuDoc.name = some "Dinner" ∧
    (updateAndRepublish bugStore "chef" "m1" bugUpdate 5).published = [] := by
  decide

end FoodAtHome
